import Mathlib

/-!
Verification development for the webhook ingestion service
(`app.py`, `utils.py`, `ai_analyzer.py`, `models.py`, `config.py`).

The Python code is shallowly embedded: pure helpers become Lean functions,
the database / file system / network / clock / JSON library become an
explicit `World` of oracles plus a `Store` state threaded through each
handler, and Python exceptions become `Except PyErr`.
-/

/-- A JSON-like Python value (the result of `json` parsing / `request.get_json()`). -/
inductive Json where
  | null : Json
  | bool (b : Bool) : Json
  | num (n : Int) : Json
  | str (s : String) : Json
  | arr (xs : List Json) : Json
  | obj (kvs : List (String × Json)) : Json

/-- A Python exception, carrying the message that `str(e)` would produce.
Messages are modelled approximately (no claim depends on their exact text). -/
inductive PyErr where
  | attributeError (msg : String) : PyErr
  | fileWriteError (msg : String) : PyErr
  | dbError (msg : String) : PyErr
deriving DecidableEq

/-- Python `str(e)` on an exception: its message. -/
def PyErr.pyMsg : PyErr → String
  | .attributeError m => m
  | .fileWriteError m => m
  | .dbError m => m

/-- Python type name of a JSON value, used in AttributeError messages. -/
def Json.pyTypeName : Json → String
  | .null => "NoneType"
  | .bool _ => "bool"
  | .num _ => "int"
  | .str _ => "str"
  | .arr _ => "list"
  | .obj _ => "dict"

/-- Python `d.get(k, dflt)` on a value expected to be a dict: a non-dict
(`None`, list, ...) has no `get` attribute and raises AttributeError. -/
def pyDictGet (d : Json) (k : String) (dflt : Json) : Except PyErr Json :=
  match d with
  | .obj kvs => .ok ((kvs.lookup k).getD dflt)
  | other => .error (.attributeError (other.pyTypeName ++ " object has no attribute get"))

/-- Python `k in d` for a dict given as a key-value list. -/
def pyHasKey (kvs : List (String × Json)) (k : String) : Bool :=
  kvs.any (fun p => p.1 == k)

/-- Python `str(v)` for the values relevant here. Container `repr` is
modelled without string-escape details (no claim depends on it). -/
def pyStr : Json → String
  | .null => "None"
  | .bool true => "True"
  | .bool false => "False"
  | .num n => toString n
  | .str s => s
  | .arr _ => "[...]"
  | .obj _ => "{...}"

/-- Python `s.lower()` (ASCII, which covers every keyword the rules test). -/
def pyLower (s : String) : String := String.mk (s.data.map Char.toLower)

/-- Character-list prefix test. -/
def listPrefix : List Char → List Char → Bool
  | [], _ => true
  | _ :: _, [] => false
  | a :: as, b :: bs => a == b && listPrefix as bs

/-- Character-list infix (contiguous substring) test. -/
def listInfix (needle : List Char) : List Char → Bool
  | [] => needle.isEmpty
  | b :: bs => listPrefix needle (b :: bs) || listInfix needle bs

/-- Python `needle in hay` substring test. -/
def pyIn (needle hay : String) : Bool := listInfix needle.data hay.data

/-- The analysis dict built by `analyze_with_rules` (ai_analyzer.py lines 156-199).
`data_type` is absent unless one of the tagging branches ran. -/
structure Analysis where
  source : String
  event_type : Json
  importance : String
  summary : String
  actions : List String
  risks : List String
  data_type : Option String := none

/-- Core of `analyze_with_rules` once `data` is known to be a dict
(ai_analyzer.py lines 156-201), mirroring the sequential dict mutations. -/
def rulesCore (kvs : List (String × Json)) (source : String) : Analysis :=
  let event_type := (kvs.lookup "event").getD (Json.str "unknown")
  let event := pyLower (pyStr ((kvs.lookup "event").getD (Json.str "")))
  let base :=
    if ["error", "failure", "critical", "alert"].any (fun k => pyIn k event) then
      ("high", "检测到严重事件: " ++ event,
       ["立即查看详细日志", "通知相关负责人"], ["可能影响服务稳定性"])
    else if ["success", "completed", "finished"].any (fun k => pyIn k event) then
      ("low", "正常完成事件: " ++ event, ["记录到日志"], [])
    else if ["user", "order", "payment"].any (fun k => pyIn k event) then
      ("high", "业务关键事件: " ++ event, ["验证数据完整性", "更新业务状态"], [])
    else
      ("medium", "一般事件: " ++ event, ["常规处理"], [])
  let importance := base.1
  let summary0 := base.2.1
  let actions := base.2.2.1
  let risks0 := base.2.2.2
  let data_type1 : Option String :=
    if pyHasKey kvs "user_id" || pyHasKey kvs "email" then some "user_related" else none
  let financial := pyHasKey kvs "amount" || pyHasKey kvs "price"
  let data_type := if financial then some "financial" else data_type1
  let risks := risks0 ++ (if financial then ["涉及财务数据,需要额外验证"] else [])
  let summary := if summary0 == "" then "收到来自 " ++ source ++ " 的 webhook 事件" else summary0
  { source := source, event_type := event_type, importance := importance,
    summary := summary, actions := actions, risks := risks, data_type := data_type }

/-- `analyze_with_rules(data, source)` (ai_analyzer.py lines 144-201).
The first statement executed on `data` is `data.get(...)`, which raises
AttributeError when `data` is not a dict. -/
def analyze_with_rules (data : Json) (source : String) : Except PyErr Analysis :=
  match data with
  | .obj kvs => .ok (rulesCore kvs source)
  | other => .error (.attributeError (other.pyTypeName ++ " object has no attribute get"))

/-! ### SHA-256 / HMAC (the `hashlib` and `hmac` library calls in utils.py)

`verify_signature` calls `hmac.new(secret, payload, hashlib.sha256).hexdigest()`;
the library functions are embedded by their standard (FIPS 180-4 / RFC 2104)
definitions over byte lists (`List Nat`, each entry < 256). -/

/-- 32-bit rotate right (input assumed < 2^32). -/
def rotr (n x : Nat) : Nat := ((x >>> n) ||| (x <<< (32 - n))) &&& 0xffffffff

/-- The 64 SHA-256 round constants (FIPS 180-4, written in decimal). -/
def k256 : List Nat :=
  [1116352408, 1899447441, 3049323471, 3921009573, 961987163,
   1508970993, 2453635748, 2870763221, 3624381080, 310598401,
   607225278, 1426881987, 1925078388, 2162078206, 2614888103,
   3248222580, 3835390401, 4022224774, 264347078, 604807628,
   770255983, 1249150122, 1555081692, 1996064986, 2554220882,
   2821834349, 2952996808, 3210313671, 3336571891, 3584528711,
   113926993, 338241895, 666307205, 773529912, 1294757372,
   1396182291, 1695183700, 1986661051, 2177026350, 2456956037,
   2730485921, 2820302411, 3259730800, 3345764771, 3516065817,
   3600352804, 4094571909, 275423344, 430227734, 506948616,
   659060556, 883997877, 958139571, 1322822218, 1537002063,
   1747873779, 1955562222, 2024104815, 2227730452, 2361852424,
   2428436474, 2756734187, 3204031479, 3329325298]

/-- The eight working variables of the SHA-256 compression function. -/
structure Hash where
  a : Nat
  b : Nat
  c : Nat
  d : Nat
  e : Nat
  f : Nat
  g : Nat
  h : Nat

/-- SHA-256 initial hash value (FIPS 180-4, written in decimal). -/
def initHash : Hash :=
  ⟨1779033703, 3144134277, 1013904242, 2773480762,
   1359893119, 2600822924, 528734635, 1541459225⟩

/-- Big-endian 4-byte encoding of a 32-bit word. -/
def be4 (x : Nat) : List Nat :=
  [(x >>> 24) &&& 255, (x >>> 16) &&& 255, (x >>> 8) &&& 255, x &&& 255]

/-- Big-endian 8-byte encoding of a 64-bit length field. -/
def be8 (x : Nat) : List Nat :=
  [(x >>> 56) &&& 255, (x >>> 48) &&& 255, (x >>> 40) &&& 255, (x >>> 32) &&& 255,
   (x >>> 24) &&& 255, (x >>> 16) &&& 255, (x >>> 8) &&& 255, x &&& 255]

/-- SHA-256 padding: append 0x80, zeros, and the 64-bit bit length. -/
def shaPad (msg : List Nat) : List Nat :=
  let L := msg.length
  let zeros := (119 - (L % 64)) % 64
  msg ++ [0x80] ++ List.replicate zeros 0 ++ be8 (8 * L)

/-- Split a byte list into 64-byte blocks. -/
def chunk64 : List Nat → List (List Nat)
  | [] => []
  | x :: xs => ((x :: xs).take 64) :: chunk64 ((x :: xs).drop 64)
termination_by l => l.length
decreasing_by simp [List.length_drop]; omega

/-- Big-endian bytes to 32-bit words. -/
def bytesToWords : List Nat → List Nat
  | b0 :: b1 :: b2 :: b3 :: rest =>
      ((b0 <<< 24) ||| (b1 <<< 16) ||| (b2 <<< 8) ||| b3) :: bytesToWords rest
  | _ => []

/-- One step of the message-schedule extension (appends word `w[t]`). -/
def extendLoop : Nat → List Nat → List Nat
  | 0, acc => acc
  | n + 1, acc =>
    let len := acc.length
    let at_ := fun i => acc.getD i 0
    let s0 := rotr 7 (at_ (len - 15)) ^^^ rotr 18 (at_ (len - 15)) ^^^ (at_ (len - 15) >>> 3)
    let s1 := rotr 17 (at_ (len - 2)) ^^^ rotr 19 (at_ (len - 2)) ^^^ (at_ (len - 2) >>> 10)
    extendLoop n (acc ++ [(at_ (len - 16) + s0 + at_ (len - 7) + s1) % 4294967296])

/-- One SHA-256 round, consuming one `(k, w)` pair. -/
def shaRound (st : Hash) (kw : Nat × Nat) : Hash :=
  let S1 := rotr 6 st.e ^^^ rotr 11 st.e ^^^ rotr 25 st.e
  let ch := (st.e &&& st.f) ^^^ ((st.e ^^^ 0xffffffff) &&& st.g)
  let temp1 := (st.h + S1 + ch + kw.1 + kw.2) % 4294967296
  let S0 := rotr 2 st.a ^^^ rotr 13 st.a ^^^ rotr 22 st.a
  let maj := (st.a &&& st.b) ^^^ (st.a &&& st.c) ^^^ (st.b &&& st.c)
  let temp2 := (S0 + maj) % 4294967296
  ⟨(temp1 + temp2) % 4294967296, st.a, st.b, st.c,
   (st.d + temp1) % 4294967296, st.e, st.f, st.g⟩

/-- SHA-256 compression of one 64-byte block. -/
def compressBlock (H : Hash) (block : List Nat) : Hash :=
  let ws := extendLoop 48 (bytesToWords block)
  let st := (k256.zip ws).foldl shaRound H
  ⟨(H.a + st.a) % 4294967296, (H.b + st.b) % 4294967296,
   (H.c + st.c) % 4294967296, (H.d + st.d) % 4294967296,
   (H.e + st.e) % 4294967296, (H.f + st.f) % 4294967296,
   (H.g + st.g) % 4294967296, (H.h + st.h) % 4294967296⟩

/-- Serialize the final hash state to 32 bytes. -/
def hashOut (H : Hash) : List Nat :=
  be4 H.a ++ be4 H.b ++ be4 H.c ++ be4 H.d ++ be4 H.e ++ be4 H.f ++ be4 H.g ++ be4 H.h

/-- SHA-256 of a byte list (`hashlib.sha256(...).digest()`). -/
def sha256 (msg : List Nat) : List Nat :=
  hashOut ((chunk64 (shaPad msg)).foldl compressBlock initHash)

/-- HMAC-SHA256 (`hmac.new(key, msg, hashlib.sha256).digest()`, RFC 2104). -/
def hmacSha256 (key msg : List Nat) : List Nat :=
  let key1 := if key.length > 64 then sha256 key else key
  let key2 := key1 ++ List.replicate (64 - key1.length) 0
  sha256 ((key2.map (fun b => b ^^^ 0x5c)) ++ sha256 ((key2.map (fun b => b ^^^ 0x36)) ++ msg))

/-- Lower-case hex digit for a nibble. -/
def nibChar (n : Nat) : Char := Char.ofNat (if n < 10 then 48 + n else 87 + n)

/-- Lower-case hex encoding of a byte list (`.hexdigest()`). -/
def hexdigest (bs : List Nat) : String :=
  String.mk (bs.flatMap (fun b => [nibChar (b / 16), nibChar (b % 16)]))

/-- UTF-8 encoding of one character (Python `str.encode` per character). -/
def utf8Char (c : Char) : List Nat :=
  let n := c.toNat
  if n < 0x80 then [n]
  else if n < 0x800 then [0xc0 ||| (n >>> 6), 0x80 ||| (n &&& 0x3f)]
  else if n < 0x10000 then
    [0xe0 ||| (n >>> 12), 0x80 ||| ((n >>> 6) &&& 0x3f), 0x80 ||| (n &&& 0x3f)]
  else
    [0xf0 ||| (n >>> 18), 0x80 ||| ((n >>> 12) &&& 0x3f),
     0x80 ||| ((n >>> 6) &&& 0x3f), 0x80 ||| (n &&& 0x3f)]

/-- Python `s.encode(utf-8)`. -/
def utf8Encode (s : String) : List Nat := s.data.flatMap utf8Char

/-- `verify_signature(payload, signature, secret)` (utils.py lines 11-34):
recompute the HMAC-SHA256 hexdigest of the payload under the secret and
compare with `hmac.compare_digest` (string equality; its constant-time
execution is a timing property outside this embedding). Callers that pass
`secret=None` in Python supply `Config.WEBHOOK_SECRET` here, matching the
default at utils.py line 24. -/
def verify_signature (payload : List Nat) (signature : String) (secret : String) : Bool :=
  hexdigest (hmacSha256 (utf8Encode secret) payload) == signature

/-! ### Configuration, world oracles, and the persistent store -/

/-- The `Config` class exactly as defined in config.py. Note that config.py
defines no `OPENAI_API_KEY`, `OPENAI_API_URL`, `OPENAI_MODEL` or
`AI_SYSTEM_PROMPT` attribute, although ai_analyzer.py reads them — and no
`DATABASE_URL` attribute either, although models.py line 58 reads it inside
`get_engine`, so every attempt to open a database session raises. -/
structure Config where
  PORT : Nat := 5000
  HOST : String := "0.0.0.0"
  DEBUG : Bool := true
  WEBHOOK_SECRET : String := "default-secret-key"
  LOG_LEVEL : String := "INFO"
  LOG_FILE : String := "logs/webhook.log"
  DATA_DIR : String := "webhooks_data"
  ENABLE_AI_ANALYSIS : Bool := true
  FORWARD_URL : String := "http://92.38.131.57:8000/webhook"
  ENABLE_FORWARD : Bool := true
  JSON_SORT_KEYS : Bool := false
  JSONIFY_PRETTYPRINT_REGULAR : Bool := true

/-- Outcome of the `requests.post` call in `forward_to_remote`. -/
inductive NetOutcome where
  | ok200 : NetOutcome
  | httpError (code : Nat) : NetOutcome
  | timeout : NetOutcome
  | connError : NetOutcome
  | exc (msg : String) : NetOutcome

/-- External-world oracles for one request: the wall clock (all
`datetime.now()` calls during the request return this tick), the JSON library
(`request.get_json()`: `none` models a parse exception), and the network.
`dbOk` (would a database commit succeed) and `fileOk` (would a file write
succeed) only matter inside branches the frozen source can never reach,
because `get_session` always raises first (see `get_session`). -/
structure World where
  dbOk : Bool
  fileOk : Bool
  now : Nat
  parseJson : List Nat → Option Json
  net : NetOutcome

/-- A row of the `webhook_events` table (models.py lines 13-35). -/
structure WebhookEvent where
  id : Nat
  source : String
  client_ip : Option String
  timestamp : Nat
  raw_payload : Option (List Nat)
  headers : List (String × String)
  parsed_data : Json
  ai_analysis : Option Analysis
  importance : Option String
  forward_status : Option String
  created_at : Nat
  updated_at : Nat

/-- One JSON backup file written by `save_webhook_to_file` (utils.py lines 112-124). -/
structure FileRecord where
  filename : String
  timestamp : Nat
  source : String
  client_ip : Option String
  headers : List (String × String)
  raw_payload : Option (List Nat)
  parsed_data : Json
  ai_analysis : Option Analysis

/-- The persistent state: the structured store (with its autoincrement
counter) and the file-based fallback store. -/
structure Store where
  events : List WebhookEvent
  nextId : Nat
  files : List FileRecord

/-- The empty store. -/
def Store.empty : Store := { events := [], nextId := 1, files := [] }

/-- Identifier returned by `save_webhook_data`: a database id (int) on the
primary path or a file path (str) on the fallback path. -/
inductive SaveId where
  | db (id : Nat) : SaveId
  | file (path : String) : SaveId
deriving DecidableEq

/-- `save_webhook_to_file` (utils.py lines 88-130): write one JSON file named
from the source and timestamp, return its path; an OS-level failure raises. -/
def save_webhook_to_file (cfg : Config) (w : World) (st : Store) (data : Json)
    (source : String) (raw_payload : Option (List Nat)) (headers : List (String × String))
    (client_ip : Option String) (ai_analysis : Option Analysis) :
    Store × Except PyErr String :=
  if w.fileOk then
    let filename := source ++ "_" ++ toString w.now ++ ".json"
    let filepath := cfg.DATA_DIR ++ "/" ++ filename
    let record : FileRecord :=
      { filename := filename, timestamp := w.now, source := source,
        client_ip := client_ip, headers := headers, raw_payload := raw_payload,
        parsed_data := data, ai_analysis := ai_analysis }
    ({ st with files := st.files ++ [record] }, .ok filepath)
  else
    (st, .error (.fileWriteError "could not open file for writing"))

/-- The exception every database-session acquisition raises in the frozen
source: models.py line 58 reads `Config.DATABASE_URL`, an attribute config.py
never defines. -/
def dbSessionErr : PyErr :=
  .attributeError "type object Config has no attribute DATABASE_URL"

/-- `get_session` (models.py lines 56-66): `get_engine()` evaluates
`Config.DATABASE_URL` at line 58 before anything else; config.py defines no
such attribute, so every call deterministically raises AttributeError and no
session is ever created. -/
def get_session : Except PyErr Unit := .error dbSessionErr

/-- The body of `save_webhook_data`'s `try:` (utils.py lines 54-83), which
only a successfully created session could reach — dead code in the frozen
source, kept for structural fidelity. Insert a row and commit (a `w.dbOk`
commit success is hypothetical), then also write the backup file; on any
exception, roll back (a commit that already succeeded is not undone) and fall
back to the file store. -/
def save_webhook_data_try (cfg : Config) (w : World) (st : Store) (data : Json)
    (source : String) (raw_payload : Option (List Nat)) (headers : List (String × String))
    (client_ip : Option String) (ai_analysis : Option Analysis)
    (forward_status : String) : Store × Except PyErr SaveId :=
  if w.dbOk then
    let ev : WebhookEvent :=
      { id := st.nextId, source := source, client_ip := client_ip, timestamp := w.now,
        raw_payload := raw_payload, headers := headers, parsed_data := data,
        ai_analysis := ai_analysis, importance := ai_analysis.map (·.importance),
        forward_status := some forward_status, created_at := w.now, updated_at := w.now }
    let st1 : Store := { st with events := st.events ++ [ev], nextId := st.nextId + 1 }
    match save_webhook_to_file cfg w st1 data source raw_payload headers client_ip ai_analysis with
    | (st2, .ok _) => (st2, .ok (.db ev.id))
    | (st2, .error _) =>
      match save_webhook_to_file cfg w st2 data source raw_payload headers client_ip ai_analysis with
      | (st3, .ok p) => (st3, .ok (.file p))
      | (st3, .error e2) => (st3, .error e2)
  else
    match save_webhook_to_file cfg w st data source raw_payload headers client_ip ai_analysis with
    | (st2, .ok p) => (st2, .ok (.file p))
    | (st2, .error e) => (st2, .error e)

/-- `save_webhook_data` (utils.py lines 37-85): `session = get_session()` at
line 53 sits OUTSIDE the `try:` of line 54, and `get_session` always raises
(undefined `Config.DATABASE_URL`), so the AttributeError propagates to the
caller before any commit or file write — neither store is ever touched and
the fallback `save_webhook_to_file` never runs. -/
def save_webhook_data (cfg : Config) (w : World) (st : Store) (data : Json)
    (source : String) (raw_payload : Option (List Nat)) (headers : List (String × String))
    (client_ip : Option String) (ai_analysis : Option Analysis)
    (forward_status : String) : Store × Except PyErr SaveId :=
  match get_session with
  | .error e => (st, .error e)
  | .ok _ =>
    save_webhook_data_try cfg w st data source raw_payload headers client_ip
      ai_analysis forward_status

/-! ### Classifier and forwarder entry points (ai_analyzer.py) -/

/-- The `webhook_full_data` dict assembled by the endpoints. -/
structure WebhookData where
  source : String
  parsed_data : Json
  timestamp : Option Nat
  client_ip : Option String

/-- `analyze_webhook_with_ai` (ai_analyzer.py lines 8-48). When AI analysis is
disabled it delegates to `analyze_with_rules` (which itself raises on non-dict
payloads). When enabled, line 26 reads `Config.OPENAI_API_KEY`; config.py
defines no such attribute, so the access raises AttributeError before the
try/except that guards the remote call is ever entered. -/
def analyze_webhook_with_ai (cfg : Config) (wd : WebhookData) : Except PyErr Analysis :=
  if !cfg.ENABLE_AI_ANALYSIS then
    analyze_with_rules wd.parsed_data wd.source
  else
    .error (.attributeError "type object Config has no attribute OPENAI_API_KEY")

/-- Result dict of `forward_to_remote` (ai_analyzer.py lines 204-285). -/
structure ForwardResult where
  status : String
  status_code : Option Nat := none
  message : Option String := none
  reason : Option String := none

/-- `forward_to_remote` (ai_analyzer.py lines 204-285): disabled forwarding
returns a `disabled` result without any network call; otherwise the outcome
of the POST (to `target_url` or the configured default) is mapped to a status
dict. The forwarded JSON envelope itself is an external effect and the
analysis argument does not influence the returned status. Never raises. -/
def forward_to_remote (cfg : Config) (w : World) (wd : WebhookData)
    (analysis_result : Option Analysis) (target_url : Option String) : ForwardResult :=
  if !cfg.ENABLE_FORWARD then
    { status := "disabled", message := some "转发功能已禁用" }
  else
    match w.net with
    | .ok200 => { status := "success", status_code := some 200 }
    | .httpError c => { status := "failed", status_code := some c }
    | .timeout => { status := "timeout", message := some "请求超时" }
    | .connError => { status := "connection_error", message := some "无法连接到远程服务器" }
    | .exc m => { status := "error", message := some m }

/-! ### HTTP endpoint handlers (app.py) -/

/-- An inbound HTTP request as seen by the handlers. -/
structure Request where
  headers : List (String × String)
  body : List Nat
  remote_addr : String

/-- `request.headers.get(k)` (exact-name lookup suffices for this development). -/
def headerGet (hs : List (String × String)) (k : String) : Option String :=
  (hs.find? (fun p => p.1 == k)).map (·.2)

/-- A JSON HTTP response; only the fields the handlers actually set. -/
structure Response where
  status : Nat
  success : Bool
  error : Option String := none
  message : Option String := none
  webhook_id : Option SaveId := none
  ai_analysis : Option Analysis := none
  forward_status : Option String := none

/-- `get_client_ip` (utils.py lines 133-148): prefer a non-empty
`X-Forwarded-For` (first comma-separated entry, stripped), then a non-empty
`X-Real-IP`, else the peer address. -/
def get_client_ip (req : Request) : String :=
  let xff := (headerGet req.headers "X-Forwarded-For").getD ""
  if xff != "" then (xff.splitOn ",").headD "" |>.trim
  else
    let xri := (headerGet req.headers "X-Real-IP").getD ""
    if xri != "" then xri
    else req.remote_addr

/-- A hypothetical failure of a session operation (query/commit) after a
session exists — only relevant inside branches the frozen source cannot
reach. -/
def dbDownErr : PyErr := .dbError "unable to open database file"

/-- Body of `receive_webhook` after the signature check has passed or been
skipped (app.py lines 184-240): parse JSON (parse failure → 400), classify,
persist with `forward_status=pending`, auto-forward only when importance is
high (else build a skipped result), respond 200. An exception escaping any of
these steps is caught by the handler's outer `except` (app.py lines 242-247)
which responds 500 `Internal server error`; state changes already committed
before the exception are kept. -/
def receive_webhook_rest (cfg : Config) (w : World) (st : Store)
    (req : Request) (source : String) (client_ip : String) : Store × Response :=
  match w.parseJson req.body with
  | none => (st, { status := 400, success := false, error := some "Invalid JSON payload" })
  | some data =>
    let wd : WebhookData :=
      { source := source, parsed_data := data, timestamp := some w.now,
        client_ip := some client_ip }
    match analyze_webhook_with_ai cfg wd with
    | .error _ => (st, { status := 500, success := false, error := some "Internal server error" })
    | .ok ar =>
      match save_webhook_data cfg w st data source (some req.body) req.headers
          (some client_ip) (some ar) "pending" with
      | (st1, .error _) =>
        (st1, { status := 500, success := false, error := some "Internal server error" })
      | (st1, .ok wid) =>
        let importance := pyLower ar.importance
        let fr :=
          if importance == "high" then
            forward_to_remote cfg w wd (some ar) none
          else
            { status := "skipped",
              reason := some ("importance is " ++ importance ++
                ", only high importance events are auto-forwarded") : ForwardResult }
        (st1, { status := 200, success := true,
                message := some "Webhook received, analyzed and forwarded successfully",
                webhook_id := some wid, ai_analysis := some ar,
                forward_status := some fr.status })

/-- `receive_webhook` (app.py lines 151-247): read signature/source headers
(missing headers read as the defaults at lines 163-164), verify the signature
only when one was supplied non-empty (`if signature:`), rejecting with 401 on
mismatch, then continue with the main pipeline body. -/
def receive_webhook (cfg : Config) (w : World) (st : Store) (req : Request) :
    Store × Response :=
  let client_ip := get_client_ip req
  let signature := (headerGet req.headers "X-Webhook-Signature").getD ""
  let source := (headerGet req.headers "X-Webhook-Source").getD "unknown"
  if signature == "" then
    receive_webhook_rest cfg w st req source client_ip
  else if verify_signature req.body signature cfg.WEBHOOK_SECRET then
    receive_webhook_rest cfg w st req source client_ip
  else
    (st, { status := 401, success := false, error := some "Invalid signature" })

/-- Replace the first element satisfying `p` (the row object mutated through
the SQLAlchemy session is the one returned by `.first()`). -/
def replaceFirst (p : α → Bool) (new : α) : List α → List α
  | [] => []
  | x :: xs => if p x then new :: xs else x :: replaceFirst p new xs

/-- The part of `reanalyze_webhook` a successfully created session could
reach (app.py lines 49-85) — dead code in the frozen source, kept for
structural fidelity: load the row (404 when absent), re-run
`analyze_webhook_with_ai` on its stored data, assign `ai_analysis` and
`importance` from the new result and commit; a classifier exception reaches
the outer `except` (500 with `str(e)`). -/
def reanalyze_webhook_try (cfg : Config) (w : World) (st : Store) (webhook_id : Nat) :
    Store × Response :=
  if !w.dbOk then
    (st, { status := 500, success := false, error := some dbDownErr.pyMsg })
  else
    match st.events.find? (fun e => e.id == webhook_id) with
    | none => (st, { status := 404, success := false, error := some "Webhook not found" })
    | some ev =>
      let wd : WebhookData :=
        { source := ev.source, parsed_data := ev.parsed_data,
          timestamp := some ev.timestamp, client_ip := ev.client_ip }
      match analyze_webhook_with_ai cfg wd with
      | .error e => (st, { status := 500, success := false, error := some e.pyMsg })
      | .ok ar =>
        let ev2 : WebhookEvent :=
          { ev with ai_analysis := some ar, importance := some ar.importance,
                    updated_at := w.now }
        ({ st with events := replaceFirst (fun e => e.id == webhook_id) ev2 st.events },
         { status := 200, success := true, ai_analysis := some ar,
           message := some "Reanalysis completed successfully" })

/-- `reanalyze_webhook` (app.py lines 41-92): `session = get_session()` at
line 48 runs inside the handler's outer `try` and always raises AttributeError
(undefined `Config.DATABASE_URL`), so every call answers 500 with `error` set
to `str(e)` — the exception's own message — and the store is never read or
updated; the load/classify/update path is unreachable. -/
def reanalyze_webhook (cfg : Config) (w : World) (st : Store) (webhook_id : Nat) :
    Store × Response :=
  match get_session with
  | .error e => (st, { status := 500, success := false, error := some e.pyMsg })
  | .ok _ => reanalyze_webhook_try cfg w st webhook_id

/-- The part of `manual_forward_webhook` a successfully created session could
reach (app.py lines 103-141) — dead code in the frozen source, kept for
structural fidelity: load the row (404 when absent), read an optional
`forward_url` from a truthy request JSON body, forward (`forward_to_remote`
never raises), store the returned status in `forward_status` and commit. -/
def manual_forward_webhook_try (cfg : Config) (w : World) (st : Store) (webhook_id : Nat)
    (request_json : Option Json) : Store × Response :=
  if !w.dbOk then
    (st, { status := 500, success := false, error := some dbDownErr.pyMsg })
  else
    match st.events.find? (fun e => e.id == webhook_id) with
    | none => (st, { status := 404, success := false, error := some "Webhook not found" })
    | some ev =>
      let custom_url : Option String :=
        match request_json with
        | some (.obj kvs) =>
          match kvs.lookup "forward_url" with
          | some (.str u) => some u
          | _ => none
        | _ => none
      let wd : WebhookData :=
        { source := ev.source, parsed_data := ev.parsed_data,
          timestamp := some ev.timestamp, client_ip := ev.client_ip }
      let fr := forward_to_remote cfg w wd ev.ai_analysis custom_url
      let ev2 : WebhookEvent :=
        { ev with forward_status := some fr.status, updated_at := w.now }
      ({ st with events := replaceFirst (fun e => e.id == webhook_id) ev2 st.events },
       { status := 200, success := fr.status == "success",
         message := some "Forward completed" })

/-- `manual_forward_webhook` (app.py lines 95-148): `session = get_session()`
at line 102 runs inside the handler's outer `try` and always raises
AttributeError (undefined `Config.DATABASE_URL`), so every call answers 500
with `error = str(e)` — the exception's own message — and the store is never
read or updated; the load/forward/update path is unreachable. -/
def manual_forward_webhook (cfg : Config) (w : World) (st : Store) (webhook_id : Nat)
    (request_json : Option Json) : Store × Response :=
  match get_session with
  | .error e => (st, { status := 500, success := false, error := some e.pyMsg })
  | .ok _ => manual_forward_webhook_try cfg w st webhook_id request_json

/-! ### Concrete fixtures used by witnesses and counterexamples -/

/-- Configuration with AI analysis and forwarding disabled
(`ENABLE_AI_ANALYSIS=false`, `ENABLE_FORWARD=false`). -/
def cfgNoAI : Config := { ENABLE_AI_ANALYSIS := false, ENABLE_FORWARD := false }

/-- Configuration with AI analysis disabled and forwarding enabled. -/
def cfgRulesFwd : Config := { ENABLE_AI_ANALYSIS := false }

/-- The UTF-8 bytes of the two-character JSON text for the empty object. -/
def bodyEmptyObj : List Nat := [123, 125]

/-- The UTF-8 bytes of a JSON object whose `event` field is `error`. -/
def bodyEventError : List Nat :=
  [123, 34, 101, 118, 101, 110, 116, 34, 58, 34, 101, 114, 114, 111, 114, 34, 125]

/-- The UTF-8 bytes of a JSON object whose `event` field is `ok`. -/
def bodyEventOk : List Nat :=
  [123, 34, 101, 118, 101, 110, 116, 34, 58, 34, 111, 107, 34, 125]

/-- A JSON library that parses exactly the body `b` to the value `j` and
rejects every other body. -/
def parseOf (b : List Nat) (j : Json) : List Nat → Option Json :=
  fun bs => if bs = b then some j else none

/-- A world whose JSON library parses exactly the body `b` to `j` and whose
forward target answers HTTP 200. -/
def wParse (b : List Nat) (j : Json) : World :=
  { dbOk := true, fileOk := true, now := 7, parseJson := parseOf b j, net := .ok200 }

/-- An unsigned request whose body is the `event: error` object. -/
def reqErr : Request :=
  { headers := [("X-Webhook-Source", "github")], body := bodyEventError,
    remote_addr := "1.2.3.4" }

/-- An unsigned request whose body is the `event: ok` object. -/
def reqOk : Request :=
  { headers := [("X-Webhook-Source", "github")], body := bodyEventOk,
    remote_addr := "1.2.3.4" }

/-- An unsigned request whose body is the empty object. -/
def reqObj : Request :=
  { headers := [("X-Webhook-Source", "github")], body := bodyEmptyObj,
    remote_addr := "1.2.3.4" }

/-- A request carrying an `X-Webhook-Signature` header whose value is the
empty string (present but necessarily not a valid HMAC hexdigest). -/
def reqEmptySig : Request :=
  { headers := [("X-Webhook-Signature", ""), ("X-Webhook-Source", "github")],
    body := bodyEmptyObj, remote_addr := "1.2.3.4" }

/-- A request carrying the non-matching signature value `x`. -/
def reqBadSig : Request :=
  { headers := [("X-Webhook-Signature", "x"), ("X-Webhook-Source", "github")],
    body := bodyEmptyObj, remote_addr := "1.2.3.4" }

/-- Classifier input whose `parsed_data` is JSON `null`. -/
def wdNull : WebhookData :=
  { source := "github", parsed_data := .null, timestamp := none, client_ip := none }

/-- Classifier input whose `parsed_data` is a JSON list. -/
def wdList : WebhookData :=
  { source := "github", parsed_data := .arr [], timestamp := none, client_ip := none }

/-- A hypothetical stored event whose parsed payload is the empty JSON object
(no reachable program state ever holds a row, since `save_webhook_data`
always raises; handlers must still answer something on such a store). -/
def evObj : WebhookEvent :=
  { id := 1, source := "github", client_ip := some "1.2.3.4", timestamp := 3,
    raw_payload := none, headers := [], parsed_data := .obj [], ai_analysis := none,
    importance := none, forward_status := some "pending", created_at := 3, updated_at := 3 }

/-- Store holding exactly the empty-object-payload event. -/
def stObj : Store := { events := [evObj], nextId := 2, files := [] }

/-! ### Helper lemmas -/

/-- Length of a `String.mk`. -/
theorem string_mk_length (l : List Char) : (String.mk l).length = l.length := rfl

/-- A flatMap producing two elements per entry doubles the length. -/
theorem flatMap_pair_length (l : List Nat) (f g : Nat → Char) :
    (l.flatMap (fun b => [f b, g b])).length = 2 * l.length := by
  induction l with
  | nil => rfl
  | cons b t ih =>
    simp only [List.flatMap_cons, List.length_append, List.length_cons,
      List.length_nil, ih]
    omega

/-- `be4` always yields four bytes. -/
theorem be4_length (x : Nat) : (be4 x).length = 4 := rfl

/-- SHA-256 digests are 32 bytes long. -/
theorem sha256_length (m : List Nat) : (sha256 m).length = 32 := by
  simp [sha256, hashOut, be4]

/-- `hexdigest` doubles the byte count. -/
theorem hexdigest_length (bs : List Nat) : (hexdigest bs).length = 2 * bs.length := by
  simp only [hexdigest, string_mk_length, flatMap_pair_length]

/-- The hexdigest of an HMAC-SHA256 value is 64 characters long. -/
theorem hexdigest_hmac_length (k m : List Nat) :
    (hexdigest (hmacSha256 k m)).length = 64 := by
  simp [hexdigest_length, hmacSha256, sha256_length]

/-- A string whose length is not 64 cannot be an HMAC-SHA256 hexdigest. -/
theorem ne_hmac_hexdigest_of_length (s : String) (k m : List Nat)
    (h : s.length ≠ 64) : s ≠ hexdigest (hmacSha256 k m) :=
  fun he => h (he ▸ hexdigest_hmac_length k m)

/-- The signature recomputed from the payload and the secret always verifies
(first half of the spec round-trip property for `verify_signature`). -/
theorem verify_signature_roundtrip (secret : String) (payload : List Nat) :
    verify_signature payload (hexdigest (hmacSha256 (utf8Encode secret) payload)) secret
      = true := by
  simp [verify_signature]

/-- Any signature other than the recomputed hexdigest is refused, in
particular every mutation of a valid signature string. -/
theorem verify_signature_rejects_other (secret : String) (payload : List Nat) (s : String)
    (h : s ≠ hexdigest (hmacSha256 (utf8Encode secret) payload)) :
    verify_signature payload s secret = false := by
  simp only [verify_signature, beq_eq_false_iff_ne, ne_eq]
  exact fun hh => h hh.symm

/-- `find?` after `replaceFirst` locates the replacement, provided the
original list contained a match and the replacement still matches. -/
theorem find?_replaceFirst {α : Type} (p : α → Bool) (new : α) (l : List α) (x : α)
    (hl : l.find? p = some x) (hnew : p new = true) :
    (replaceFirst p new l).find? p = some new := by
  induction l with
  | nil => simp at hl
  | cons y ys ih =>
    cases hy : p y with
    | true => simp [replaceFirst, hy, List.find?_cons, hnew]
    | false =>
      rw [List.find?_cons_of_neg _ (by simp [hy])] at hl
      simp only [replaceFirst, hy, Bool.false_eq_true, if_false]
      rw [List.find?_cons_of_neg _ (by simp [hy])]
      exact ih hl

/-- The configuration with every value left at its config.py default
(in particular `ENABLE_AI_ANALYSIS=true`). -/
def cfgDefaults : Config := {}

/-! ### Claims -/

/-- Ingestion of the `event: error` payload (rule-based importance high) with
forwarding enabled: in the frozen source the request dies at the persistence
step before any forward decision. -/
def outErr : Store × Response :=
  receive_webhook cfgRulesFwd
    (wParse bodyEventError (Json.obj [("event", Json.str "error")])) Store.empty reqErr

/-- Claim C1: the spec requires the persisted `forward_status` to reflect the
forward attempt (or be marked `skipped` with a reason) once the pipeline has
responded. In the frozen source no persisted `forwardStatus` can ever exist:
`save_webhook_data` raises AttributeError (models.py line 58 reads the
undefined `Config.DATABASE_URL`, propagated from utils.py line 53 outside the
`try:`), so an accepted, classified, high-importance request answers 500 with
no row in either store, no forward attempt, and no `forward_status` in the
response — and even the intended path (app.py lines 206-240, whose comment
promises an update after the forward) contains no such update. -/
theorem claim_C1_code_bug :
    outErr.2.status = 500 ∧
    outErr.2.error = some "Internal server error" ∧
    outErr.2.forward_status = none ∧
    outErr.1.events.length = 0 ∧
    outErr.1.files.length = 0 := by
  decide

/-- One `save_webhook_data` call on the empty store, with the classifier
result an accepted request would carry. -/
def outSave : Store × Except PyErr SaveId :=
  save_webhook_data cfgNoAI (wParse bodyEmptyObj (Json.obj [])) Store.empty (Json.obj [])
    "github" (some bodyEmptyObj) [] (some "1.2.3.4") (some (rulesCore [] "github")) "pending"

/-- Claim C2: the spec requires exactly one persisted representation per
accepted request. The code persists ZERO representations: `get_session`
raises AttributeError (undefined `Config.DATABASE_URL`) at utils.py line 53,
before the `try:` that would commit the row or fall back to a file, so create
returns the exception, both stores stay empty, and the request answers 500. -/
theorem claim_C2_code_bug :
    outSave.2 = Except.error dbSessionErr ∧
    outSave.1.events.length = 0 ∧
    outSave.1.files.length = 0 ∧
    (receive_webhook cfgNoAI (wParse bodyEmptyObj (Json.obj [])) Store.empty
        reqObj).1.events.length
      + (receive_webhook cfgNoAI (wParse bodyEmptyObj (Json.obj [])) Store.empty
        reqObj).1.files.length = 0 ∧
    (receive_webhook cfgNoAI (wParse bodyEmptyObj (Json.obj [])) Store.empty
      reqObj).2.status = 500 := by
  refine ⟨rfl, ?_, ?_, ?_, ?_⟩ <;> decide

/-- Claim C3: the spec requires `classify` never to raise. In the code,
`analyze_webhook_with_ai` raises AttributeError to its caller (a) under the
default configuration, because ai_analyzer.py line 26 reads
`Config.OPENAI_API_KEY`, which config.py never defines, outside any
try/except; and (b) even with AI disabled, whenever `parsed_data` is not a
JSON object (`null` or a list), because `analyze_with_rules` immediately
calls `.get` on it. -/
theorem claim_C3_code_bug :
    analyze_webhook_with_ai cfgDefaults wdNull
      = .error (.attributeError "type object Config has no attribute OPENAI_API_KEY") ∧
    analyze_webhook_with_ai cfgNoAI wdNull
      = .error (.attributeError "NoneType object has no attribute get") ∧
    analyze_webhook_with_ai cfgNoAI wdList
      = .error (.attributeError "list object has no attribute get") :=
  ⟨rfl, rfl, rfl⟩

/-- Claim C8 counterexample: for a payload with no `event` field, the
rule-based summary is the general-event text with an empty event string
("一般事件: "), not "received webhook event from {source}"
("收到来自 {source} 的 webhook 事件"): every branch of the `event` dispatch sets a
non-empty summary, so the line-198 default can never fire. -/
theorem claim_C8_counterexample :
    (analyze_with_rules (Json.obj []) "github").toOption.map Analysis.summary
      = some "一般事件: " ∧
    (analyze_with_rules (Json.obj []) "github").toOption.map Analysis.summary
      ≠ some "收到来自 github 的 webhook 事件" := by
  decide

/-- Claim C8 (amended): for every dict payload with no `event` field, the
rule-based summary equals the general-event text with the empty event string,
"一般事件: " — the "received webhook event from {source}" default is dead code. -/
theorem claim_C8_amended (kvs : List (String × Json)) (source : String)
    (h : kvs.lookup "event" = none) :
    (analyze_with_rules (Json.obj kvs) source).toOption.map Analysis.summary
      = some "一般事件: " := by
  simp only [analyze_with_rules, rulesCore, h]
  rfl

/-- Claim C8 witness: the amended claim at a concrete event-free payload. -/
theorem claim_C8_witness :
    (analyze_with_rules (Json.obj [("x", Json.num 1)]) "gitlab").toOption.map
      Analysis.summary = some "一般事件: " :=
  claim_C8_amended [("x", Json.num 1)] "gitlab" rfl

/-- Claim C10: when a payload has both a user-related key (`user_id`/`email`)
and a financial key (`amount`/`price`), the single `data_type` field ends up
`financial`: the financial branch (ai_analyzer.py line 194) overwrites the
`user_related` tag assigned at line 192. -/
theorem claim_C10_financial_overwrites (kvs : List (String × Json)) (source : String)
    (hu : (pyHasKey kvs "user_id" || pyHasKey kvs "email") = true)
    (hf : (pyHasKey kvs "amount" || pyHasKey kvs "price") = true) :
    (analyze_with_rules (Json.obj kvs) source).toOption.map Analysis.data_type
      = some (some "financial") := by
  simp only [analyze_with_rules, rulesCore, hf]
  rfl

/-- Claim C10 witness: a payload with `user_id` and `amount` is tagged
`financial`. -/
theorem claim_C10_witness :
    (analyze_with_rules (Json.obj [("user_id", Json.num 5), ("amount", Json.num 9)])
      "stripe").toOption.map Analysis.data_type = some (some "financial") :=
  claim_C10_financial_overwrites [("user_id", Json.num 5), ("amount", Json.num 9)]
    "stripe" (by decide) (by decide)

/-- Claim C4 counterexample: a request that carries an `X-Webhook-Signature`
header with the empty-string value — which matches no HMAC hexdigest — is not
rejected as unauthenticated: `if signature:` (app.py line 175) treats it like
an absent header, verification is skipped, and the pipeline parses and
classifies the body and proceeds to the persistence step; in the frozen
source it then answers the generic 500 of the save failure, not the 401
authentication failure the claim requires. -/
theorem claim_C4_counterexample :
    headerGet reqEmptySig.headers "X-Webhook-Signature" = some "" ∧
    ("" : String) ≠ hexdigest (hmacSha256 (utf8Encode cfgNoAI.WEBHOOK_SECRET)
      reqEmptySig.body) ∧
    (receive_webhook cfgNoAI (wParse bodyEmptyObj (Json.obj [])) Store.empty
      reqEmptySig).2.status = 500 ∧
    (receive_webhook cfgNoAI (wParse bodyEmptyObj (Json.obj [])) Store.empty
      reqEmptySig).2.status ≠ 401 ∧
    (receive_webhook cfgNoAI (wParse bodyEmptyObj (Json.obj [])) Store.empty
      reqEmptySig).2.error ≠ some "Invalid signature" := by
  refine ⟨rfl, ne_hmac_hexdigest_of_length "" _ _ (by decide), ?_, ?_, ?_⟩
  · decide
  · decide
  · decide

/-- Claim C4 (amended): every request carrying a NON-EMPTY signature value
that differs from the HMAC-SHA256 hexdigest of its body under the configured
secret is rejected with 401 `Invalid signature` and an unchanged store — for
every world, in particular whatever the JSON parser would have said, so the
rejection precedes parsing and persistence. -/
theorem claim_C4_amended (cfg : Config) (w : World) (st : Store) (req : Request)
    (s : String)
    (hs : headerGet req.headers "X-Webhook-Signature" = some s)
    (hne : s ≠ "")
    (hbad : s ≠ hexdigest (hmacSha256 (utf8Encode cfg.WEBHOOK_SECRET) req.body)) :
    receive_webhook cfg w st req =
      (st, { status := 401, success := false, error := some "Invalid signature" }) := by
  have h1 : (s == "") = false := beq_eq_false_iff_ne.mpr hne
  have h2 : verify_signature req.body s cfg.WEBHOOK_SECRET = false :=
    verify_signature_rejects_other _ _ _ hbad
  simp [receive_webhook, hs, h1, h2]

/-- Claim C4 witness: a concrete mismatched signature value is rejected. -/
theorem claim_C4_witness :
    receive_webhook cfgNoAI (wParse bodyEmptyObj (Json.obj [])) Store.empty reqBadSig =
      (Store.empty, { status := 401, success := false, error := some "Invalid signature" }) :=
  claim_C4_amended cfgNoAI (wParse bodyEmptyObj (Json.obj [])) Store.empty reqBadSig "x" rfl
    (by decide) (ne_hmac_hexdigest_of_length "x" _ _ (by decide))

/-- Claim C6: the spec requires structured-store failure to be masked by the
file fallback and never to abort ingestion. The only structured-store failure
the frozen source can have — `get_session` raising AttributeError because
`Config.DATABASE_URL` is undefined — occurs at utils.py line 53 BEFORE the
`try:` that implements the fallback, so no file is written, no identifier is
returned, and an otherwise well-formed unsigned request aborts with 500
instead of surfacing a degraded-but-successful result. -/
theorem claim_C6_code_bug :
    get_session = Except.error dbSessionErr ∧
    (receive_webhook cfgNoAI (wParse bodyEventOk (Json.obj [("event", Json.str "ok")]))
      Store.empty reqOk).2.status = 500 ∧
    (receive_webhook cfgNoAI (wParse bodyEventOk (Json.obj [("event", Json.str "ok")]))
      Store.empty reqOk).2.success = false ∧
    (receive_webhook cfgNoAI (wParse bodyEventOk (Json.obj [("event", Json.str "ok")]))
      Store.empty reqOk).2.webhook_id = none ∧
    (receive_webhook cfgNoAI (wParse bodyEventOk (Json.obj [("event", Json.str "ok")]))
      Store.empty reqOk).1.files.length = 0 ∧
    (receive_webhook cfgNoAI (wParse bodyEventOk (Json.obj [("event", Json.str "ok")]))
      Store.empty reqOk).1.events.length = 0 := by
  refine ⟨rfl, ?_, ?_, ?_, ?_, ?_⟩ <;> decide

/-- Case analysis of the pipeline body responses: 400, generic 500, or 200. -/
theorem rest_resp_cases (cfg : Config) (w : World) (st : Store) (req : Request)
    (source client_ip : String) :
    ((receive_webhook_rest cfg w st req source client_ip).2.status = 400 ∧
      (receive_webhook_rest cfg w st req source client_ip).2.error
        = some "Invalid JSON payload") ∨
    ((receive_webhook_rest cfg w st req source client_ip).2.status = 500 ∧
      (receive_webhook_rest cfg w st req source client_ip).2.error
        = some "Internal server error") ∨
    ((receive_webhook_rest cfg w st req source client_ip).2.status = 200 ∧
      (receive_webhook_rest cfg w st req source client_ip).2.error = none) := by
  simp only [receive_webhook_rest]
  split
  · exact Or.inl ⟨rfl, rfl⟩
  · split
    · exact Or.inr (Or.inl ⟨rfl, rfl⟩)
    · split
      · exact Or.inr (Or.inl ⟨rfl, rfl⟩)
      · exact Or.inr (Or.inr ⟨rfl, rfl⟩)

/-- Case analysis of every `receive_webhook` response: 401, 400, generic 500,
or 200. -/
theorem receive_resp_cases (cfg : Config) (w : World) (st : Store) (req : Request) :
    ((receive_webhook cfg w st req).2.status = 401 ∧
      (receive_webhook cfg w st req).2.error = some "Invalid signature") ∨
    ((receive_webhook cfg w st req).2.status = 400 ∧
      (receive_webhook cfg w st req).2.error = some "Invalid JSON payload") ∨
    ((receive_webhook cfg w st req).2.status = 500 ∧
      (receive_webhook cfg w st req).2.error = some "Internal server error") ∨
    ((receive_webhook cfg w st req).2.status = 200 ∧
      (receive_webhook cfg w st req).2.error = none) := by
  simp only [receive_webhook]
  split
  · exact Or.inr (rest_resp_cases cfg w st req _ _)
  · split
    · exact Or.inr (rest_resp_cases cfg w st req _ _)
    · exact Or.inl ⟨rfl, rfl⟩

/-- Claim C7 counterexample: a manual reanalysis call ends in a 500 response
whose `error` field is exactly the raised exception's message (`str(e)`,
app.py line 91) — in the frozen source always the AttributeError from the
undefined `Config.DATABASE_URL` — not a generic internal-error text. -/
theorem claim_C7_counterexample :
    (reanalyze_webhook cfgNoAI (wParse bodyEmptyObj (Json.obj [])) stObj 1).2.status
      = 500 ∧
    (reanalyze_webhook cfgNoAI (wParse bodyEmptyObj (Json.obj [])) stObj 1).2.error
      = some dbSessionErr.pyMsg ∧
    (reanalyze_webhook cfgNoAI (wParse bodyEmptyObj (Json.obj [])) stObj 1).2.error
      ≠ some "Internal server error" := by
  refine ⟨?_, rfl, ?_⟩
  · decide
  · decide

/-- Claim C7 (amended): only the ingestion endpoint maps unhandled exceptions
to the generic `Internal server error` body; the manual reanalysis and manual
forward endpoints answer 500 with the exception's own message in the `error`
field — in the frozen source every one of their calls does so, leaking the
AttributeError raised by `get_session` (undefined `Config.DATABASE_URL`)
before the store is read or updated. -/
theorem claim_C7_amended :
    (∀ (cfg : Config) (w : World) (st : Store) (req : Request),
      (receive_webhook cfg w st req).2.status = 500 →
      (receive_webhook cfg w st req).2.error = some "Internal server error") ∧
    (∀ (cfg : Config) (w : World) (st : Store) (wid : Nat),
      (reanalyze_webhook cfg w st wid).2.status = 500 ∧
      (reanalyze_webhook cfg w st wid).2.error = some dbSessionErr.pyMsg ∧
      (reanalyze_webhook cfg w st wid).1 = st) ∧
    (∀ (cfg : Config) (w : World) (st : Store) (wid : Nat) (rj : Option Json),
      (manual_forward_webhook cfg w st wid rj).2.status = 500 ∧
      (manual_forward_webhook cfg w st wid rj).2.error = some dbSessionErr.pyMsg ∧
      (manual_forward_webhook cfg w st wid rj).1 = st) := by
  refine ⟨?_, ?_, ?_⟩
  · intro cfg w st req h
    rcases receive_resp_cases cfg w st req with ⟨h1, _⟩ | ⟨h1, _⟩ | ⟨_, h2⟩ | ⟨h1, _⟩
    · omega
    · omega
    · exact h2
    · omega
  · intro cfg w st wid
    exact ⟨rfl, rfl, rfl⟩
  · intro cfg w st wid rj
    exact ⟨rfl, rfl, rfl⟩

/-- Claim C7 witness: the three amended facts at concrete inputs — a
default-configured ingestion that fails internally (generic body), a
reanalysis call (session exception message leaked), and a manual forward call
(session exception message leaked). -/
theorem claim_C7_witness :
    (receive_webhook cfgDefaults (wParse bodyEmptyObj (Json.obj [])) Store.empty
      reqObj).2.error = some "Internal server error" ∧
    (reanalyze_webhook cfgDefaults (wParse bodyEmptyObj (Json.obj [])) stObj 1).2.error
      = some dbSessionErr.pyMsg ∧
    (manual_forward_webhook cfgDefaults (wParse bodyEmptyObj (Json.obj [])) stObj 1
      none).2.error = some dbSessionErr.pyMsg :=
  ⟨claim_C7_amended.1 cfgDefaults (wParse bodyEmptyObj (Json.obj [])) Store.empty reqObj
      (by decide),
   (claim_C7_amended.2.1 cfgDefaults (wParse bodyEmptyObj (Json.obj [])) stObj 1).2.1,
   (claim_C7_amended.2.2 cfgDefaults (wParse bodyEmptyObj (Json.obj [])) stObj 1 none).2.1⟩

/-- Claim C9: the spec (Scenario E) requires manual reanalysis to update the
stored `aiAnalysis` and `importance` while preserving `id`, `source` and
`createdAt`. In the frozen source every /api/reanalyze call raises
AttributeError at `get_session` (app.py line 48; `Config.DATABASE_URL` is
undefined) and answers 500 with that message: even on a store holding a row,
nothing is read or updated, so the claimed update never executes. -/
theorem claim_C9_code_bug :
    reanalyze_webhook cfgNoAI (wParse bodyEmptyObj (Json.obj [])) stObj 1
      = (stObj, { status := 500, success := false, error := some dbSessionErr.pyMsg }) ∧
    (reanalyze_webhook cfgNoAI (wParse bodyEmptyObj (Json.obj [])) stObj 1).1.events.map
      (·.ai_analysis) = [none] :=
  ⟨rfl, rfl⟩
